import Mathlib

/-!
Shallow embedding of `src/python/voice_processor.py` (VR-Terrain-Generation).

The file models the interpretation pipeline of the `VoiceTerrainProcessor`
class: the parameter validator (`validate_parameters`), the keyword-driven
heuristic analyzer (`fallback_analysis`), the remote-backed semantic analyzer
(`analyze_terrain_request`), the transcription fallback
(`fallback_transcription` / `transcribe_audio`), the keyword extractor
(`extract_keywords`) and the orchestrator (`process_voice_command`).

Modelling conventions:
* Python numbers (int and float) are modelled as rationals `ℚ`.  Every
  numeric literal in the source is exactly representable, and all the
  comparisons and products the theorems below depend on stay far from any
  rounding boundary, so rational arithmetic agrees with the source's float
  arithmetic on everything stated here.  Python's `dict` equality compares
  `int` and `float` by value, which matches collapsing both into `ℚ`.
* Python dictionaries are association lists `List (String × Val)`; the
  source builds its dictionaries with distinct keys in a fixed insertion
  order, so list equality coincides with `dict` equality.
* The value space `Val` keeps the one distinction `validate_parameters`
  branches on: `isinstance(value, (int, float))`.  Numeric values are
  `Val.num`, every non-numeric JSON value (string, list, null, ...) behaves
  identically in the validator and is represented by `Val.str`.
* `os.urandom`-based randomness is an explicit parameter `r : ℕ`; the
  source computes `seed = r % 10000`.
* The remote model call plus `json.loads` of its response is an oracle
  `ParsedResponse`; the filesystem is an oracle `fs : String → Bool`; the
  speech engine is an oracle `Option (String → Option String)` (`none` =
  engine unavailable, `some f` with `f path = none` = engine raised).
-/

/-- A Python value as far as `validate_parameters` can distinguish:
numeric (`int`/`float`, collapsed into `ℚ`) or non-numeric. -/
inductive Val where
  | num (q : ℚ)
  | str (s : String)
deriving DecidableEq, Repr

/-- A Python dict with string keys, as an association list in insertion
order. -/
abbrev ParamMap := List (String × Val)

/-- Python `int(q)`: truncation toward zero. -/
def truncQ (q : ℚ) : ℤ := if q < 0 then ⌈q⌉ else ⌊q⌋

/-- The `constraints` dict of `validate_parameters`, in source order:
key ↦ (min value, max value). -/
def constraints : List (String × ℚ × ℚ) :=
  [("seed", 0, 10000),
   ("frequency", 1/100, 1),
   ("amplitude", 1/2, 20),
   ("octaves", 1, 6),
   ("lacunarity", 3/2, 3),
   ("persistence", 1/10, 4/5),
   ("terrain_type", 0, 5),
   ("erosion", 0, 1),
   ("plateau", 0, 15)]

/-- The 9 schema keys, in source order. -/
def constraintKeys : List String := constraints.map Prod.fst

/-- The `defaults` dict of `validate_parameters`. -/
def defaultsMap : List (String × ℚ) :=
  [("seed", 42),
   ("frequency", 1/10),
   ("amplitude", 5),
   ("octaves", 3),
   ("lacunarity", 2),
   ("persistence", 1/2),
   ("terrain_type", 1),
   ("erosion", 0),
   ("plateau", 0)]

/-- The per-value branch of the validator loop: numeric values are clamped
with `max(min_val, min(max_val, value))`, non-numeric values are replaced
by the minimum bound. -/
def validateValue (lo hi : ℚ) : Val → ℚ
  | .num q => max lo (min hi q)
  | .str _ => lo

/-- One iteration of the validator loop for key `key`: present values go
through `validateValue`, absent keys take `defaults[key]`. -/
def validateField (params : ParamMap) (key : String) (lo hi : ℚ) : ℚ :=
  match params.lookup key with
  | some v => validateValue lo hi v
  | none => (defaultsMap.lookup key).getD 0

/-- The `for key, (min_val, max_val) in constraints.items()` loop of
`validate_parameters`, producing the `validated` dict. -/
def validateLoop (params : ParamMap) : ParamMap :=
  constraints.map (fun c => (c.1, Val.num (validateField params c.1 c.2.1 c.2.2)))

/-- `validated[key] = int(validated[key])`: overwrite the entry at `key`
with its truncation. -/
def intify (key : String) (m : ParamMap) : ParamMap :=
  m.map (fun e =>
    if e.1 = key then
      (e.1, match e.2 with
            | Val.num q => Val.num ((truncQ q : ℤ) : ℚ)
            | v => v)
    else e)

/-- `validate_parameters`: run the constraints loop, then coerce
`terrain_type`, `seed` and `octaves` to integers (in source order). -/
def validate_parameters (params : ParamMap) : ParamMap :=
  intify "octaves" (intify "seed" (intify "terrain_type" (validateLoop params)))

/-- Read a numeric field out of a parameter dict (0 if absent or
non-numeric; every lookup performed by the theorems below hits a present
numeric field). -/
def getQ (m : ParamMap) (key : String) : ℚ :=
  match m.lookup key with
  | some (Val.num q) => q
  | _ => 0

/-- Boolean list-prefix test (structurally recursive, so that concrete
instances reduce inside the kernel). -/
def listPrefixOf (w t : List Char) : Bool :=
  match w, t with
  | [], _ => true
  | c :: cs, d :: ds => c == d && listPrefixOf cs ds
  | _, [] => false

/-- Boolean contiguous-sublist test: `listInfixOf w t` is true when `w`
occurs consecutively inside `t`. -/
def listInfixOf : List Char → List Char → Bool
  | w, [] => w.isEmpty
  | w, b :: ts => listPrefixOf w (b :: ts) || listInfixOf w ts

/-- Python `str.lower()` (the source only lower-cases ASCII keyword text,
which `Char.toLower` models exactly). -/
def pyLower (s : String) : String :=
  String.mk (s.toList.map Char.toLower)

/-- Python `word in text` on strings: substring containment. -/
def containsWord (text word : String) : Bool :=
  listInfixOf word.toList text.toList

/-- Python `any(word in text_lower for word in words)`. -/
def anyWord (text : String) (ws : List String) : Bool :=
  ws.any (containsWord text)

/-- Keyword families of `fallback_analysis`, in source order. -/
def mountainWords : List String := ["mountain", "mountains", "peak", "peaks"]

/-- Hill-family keywords. -/
def hillWords : List String := ["hill", "hills", "hilly", "rolling"]

/-- Valley-family keywords. -/
def valleyWords : List String := ["valley", "valleys", "depression", "low"]

/-- Flat-family keywords. -/
def flatWords : List String := ["flat", "plain", "plains", "level"]

/-- Plateau-family keywords. -/
def plateauWords : List String := ["plateau", "mesa", "tableland"]

/-- Size-up keywords. -/
def sizeUpWords : List String := ["large", "big", "huge", "massive"]

/-- Size-down keywords. -/
def sizeDownWords : List String := ["small", "tiny", "little", "mini"]

/-- Roughness keywords. -/
def roughWords : List String := ["rough", "jagged", "rocky", "detailed"]

/-- Smoothness keywords. -/
def smoothWords : List String := ["smooth", "gentle", "soft", "simple"]

/-- Water-feature keywords. -/
def waterWords : List String := ["river", "stream", "water", "creek"]

/-- The `params` dict of `fallback_analysis`, as a structure (its key set
never changes: every `update` call only touches these nine fields). -/
structure TParams where
  seed : ℚ
  frequency : ℚ
  amplitude : ℚ
  octaves : ℚ
  lacunarity : ℚ
  persistence : ℚ
  terrain_type : ℚ
  erosion : ℚ
  plateau : ℚ
deriving DecidableEq, Repr

/-- The initial `params` dict of `fallback_analysis`:
`seed = int.from_bytes(os.urandom(4)) % 10000`, the rest fixed. -/
def defaultParams (r : ℕ) : TParams :=
  { seed := ((r % 10000 : ℕ) : ℚ), frequency := 1/10, amplitude := 5,
    octaves := 3, lacunarity := 2, persistence := 1/2, terrain_type := 1,
    erosion := 0, plateau := 0 }

/-- Terrain-type keyword layer of `fallback_analysis` (if/elif chain). -/
def terrainLayer (t : String) (p : TParams) : TParams :=
  if anyWord t mountainWords then
    { p with terrain_type := 2, amplitude := 15, frequency := 1/20 }
  else if anyWord t hillWords then
    { p with terrain_type := 1, amplitude := 8, frequency := 1/10 }
  else if anyWord t valleyWords then
    { p with terrain_type := 3, amplitude := 6 }
  else if anyWord t flatWords then
    { p with terrain_type := 0, amplitude := 1 }
  else if anyWord t plateauWords then
    { p with terrain_type := 4, plateau := 5, amplitude := 8 }
  else p

/-- Size-modifier layer: multiplicative updates to frequency/amplitude. -/
def sizeLayer (t : String) (p : TParams) : TParams :=
  if anyWord t sizeUpWords then
    { p with frequency := p.frequency * (1/2), amplitude := p.amplitude * (3/2) }
  else if anyWord t sizeDownWords then
    { p with frequency := p.frequency * 2, amplitude := p.amplitude * (7/10) }
  else p

/-- Detail-modifier layer. -/
def detailLayer (t : String) (p : TParams) : TParams :=
  if anyWord t roughWords then
    { p with octaves := 5, lacunarity := 5/2 }
  else if anyWord t smoothWords then
    { p with octaves := 2, persistence := 3/10 }
  else p

/-- Water-feature layer. -/
def waterLayer (t : String) (p : TParams) : TParams :=
  if anyWord t waterWords then { p with erosion := 3/10 } else p

/-- The whole of `fallback_analysis` up to the returned dict, on the
lower-cased text, with the random draw `r` explicit. -/
def fallbackCompute (text : String) (r : ℕ) : TParams :=
  waterLayer (pyLower text)
    (detailLayer (pyLower text)
      (sizeLayer (pyLower text)
        (terrainLayer (pyLower text) (defaultParams r))))

/-- The `params` structure as the dict `fallback_analysis` returns, in the
source's insertion order (the same order `validate_parameters` uses). -/
def toMap (p : TParams) : ParamMap :=
  [("seed", Val.num p.seed),
   ("frequency", Val.num p.frequency),
   ("amplitude", Val.num p.amplitude),
   ("octaves", Val.num p.octaves),
   ("lacunarity", Val.num p.lacunarity),
   ("persistence", Val.num p.persistence),
   ("terrain_type", Val.num p.terrain_type),
   ("erosion", Val.num p.erosion),
   ("plateau", Val.num p.plateau)]

/-- `fallback_analysis(text)` with the random draw `r` explicit. -/
def fallback_analysis (text : String) (r : ℕ) : ParamMap :=
  toMap (fallbackCompute text r)

/-- A parsed JSON value as `analyze_terrain_request` can receive it from
`json.loads` of the remote response.  Object values are collapsed into
`Val` (the only distinction `validate_parameters` makes); array elements
are likewise `Val` (the membership scan only ever compares them with the
nine schema-key strings). -/
inductive Json where
  | obj (m : ParamMap)
  | arr (elems : List Val)
  | jstr (s : String)
  | jnum (q : ℚ)
  | jbool (b : Bool)
  | jnull
deriving DecidableEq

/-- Outcome of the remote-model step of `analyze_terrain_request`: the
chat-completion call raised, the response failed `json.loads`, or it
parsed to a JSON value. -/
inductive ParsedResponse where
  | callFailed
  | parseFailed
  | parsed (j : Json)
deriving DecidableEq

/-- Python `key in params` when `params` is a list: true when some element
equals the string `key` (later `params[key]` then raises `TypeError`,
which the enclosing `except` turns into the fallback path). -/
def keyHitsArr (elems : List Val) : Bool :=
  constraintKeys.any (fun k => elems.any (fun v => v == Val.str k))

/-- Python `key in params` when `params` is a string: substring
containment of some schema key (again followed by a `TypeError`). -/
def keyHitsStr (s : String) : Bool :=
  constraintKeys.any (fun k => containsWord s k)

/-- `analyze_terrain_request`: with no client, or on call/parse failure,
delegate to `fallback_analysis`.  On parsed JSON: dict responses go to the
validator; list/str responses go to the validator's loop where `key in
params` either raises `TypeError` (fallback) or never matches (yielding
the all-defaults validated record); int/float/bool/null responses raise
`TypeError` in the first `in` test (fallback). -/
def analyze_terrain_request (client : Bool) (remote : ParsedResponse)
    (text : String) (r : ℕ) : ParamMap :=
  if client = false then fallback_analysis text r
  else
    match remote with
    | .callFailed => fallback_analysis text r
    | .parseFailed => fallback_analysis text r
    | .parsed (.obj m) => validate_parameters m
    | .parsed (.arr elems) =>
        if keyHitsArr elems then fallback_analysis text r
        else validate_parameters []
    | .parsed (.jstr s) =>
        if keyHitsStr s then fallback_analysis text r
        else validate_parameters []
    | .parsed (.jnum _) => fallback_analysis text r
    | .parsed (.jbool _) => fallback_analysis text r
    | .parsed .jnull => fallback_analysis text r

/-- The `fallback_phrases` dict of `fallback_transcription`, in insertion
order. -/
def fallback_phrases : List (String × String) :=
  [("mountain", "I want some mountains"),
   ("hill", "Make rolling hills"),
   ("valley", "Create valleys with a river"),
   ("flat", "I want a flat plain"),
   ("rough", "Make rough rocky terrain"),
   ("smooth", "Create smooth gentle hills")]

/-- The default fallback phrase. -/
def default_phrase : String := "Create hilly terrain"

/-- The last path component, as `pathlib` computes `Path(p).name`
(empty components and `.` components are dropped). -/
def pyName (p : String) : String :=
  ((p.splitOn "/").filter (fun c => c != "" && c != ".")).getLastD ""

/-- Index of the last `.` in a list of characters, if any. -/
def lastDotIdx (cs : List Char) : Option ℕ :=
  ((List.range cs.length).filter (fun i => cs.getD i ' ' == '.')).getLast?

/-- `Path(p).stem`: the final component with its last extension removed;
a leading or trailing dot is not an extension separator. -/
def pyStem (p : String) : String :=
  let n := pyName p
  let cs := n.toList
  match lastDotIdx cs with
  | some i => if 0 < i ∧ i + 1 < cs.length then String.mk (cs.take i) else n
  | none => n

/-- `fallback_transcription`: the canned phrase of the first keyword
contained in the lower-cased stem of the path, else the default phrase. -/
def fallback_transcription (path : String) : String :=
  match fallback_phrases.find? (fun kp => containsWord (pyLower (pyStem path)) kp.1) with
  | some kp => kp.2
  | none => default_phrase

/-- `transcribe_audio` with the speech engine as an oracle: `none` means
the engine is unavailable; `some engine` with `engine path = none` means
the engine raised; a successful result is stripped. -/
def transcribe_audio (whisper : Option (String → Option String)) (path : String) : String :=
  match whisper with
  | none => fallback_transcription path
  | some engine =>
    match engine path with
    | some t => t.trim
    | none => fallback_transcription path

/-- The keyword catalogue of `extract_keywords`: terrain words. -/
def terrain_keywords : List String :=
  ["mountain", "mountains", "hill", "hills", "valley", "valleys",
   "flat", "plain", "plains", "plateau", "mesa"]

/-- Feature words of `extract_keywords`. -/
def feature_keywords : List String :=
  ["river", "stream", "water", "rough", "smooth", "jagged",
   "gentle", "steep", "rocky", "grassy", "forest"]

/-- Size words of `extract_keywords`. -/
def size_keywords : List String :=
  ["large", "big", "huge", "small", "tiny", "massive", "mini"]

/-- `extract_keywords`: every catalogue word contained in the lower-cased
text, in catalogue order. -/
def extract_keywords (text : String) : List String :=
  (terrain_keywords ++ feature_keywords ++ size_keywords).filter
    (fun k => containsWord (pyLower text) k)

/-- The result dict of `process_voice_command`: either the single-key
error dict or the four-key success dict (with `success: true` implied by
the constructor). -/
inductive PResult where
  | err (msg : String)
  | ok (text : String) (parameters : ParamMap) (keywords : List String)
deriving DecidableEq

/-- `process_voice_command`, with the filesystem, speech engine, remote
client and random draw as explicit oracles. -/
def process_voice_command (fs : String → Bool)
    (whisper : Option (String → Option String)) (client : Bool)
    (remote : ParsedResponse) (r : ℕ) (path : String) : PResult :=
  if fs path = false then PResult.err ("Audio file not found: " ++ path)
  else
    let text := transcribe_audio whisper path
    if text = "" then PResult.err "Failed to transcribe audio"
    else PResult.ok text (analyze_terrain_request client remote text r)
           (extract_keywords text)

/-! ## Helper lemmas about the validator -/

lemma truncQ_intCast (n : ℤ) : truncQ (n : ℚ) = n := by
  unfold truncQ
  split <;> simp

lemma truncQ_eq_floor {q : ℚ} (h : 0 ≤ q) : truncQ q = ⌊q⌋ := by
  unfold truncQ
  rw [if_neg (not_lt.mpr h)]

lemma truncQ_bounds {v : ℚ} {a b : ℤ} (h0 : 0 ≤ a) (h1 : (a : ℚ) ≤ v)
    (h2 : v ≤ (b : ℚ)) :
    (a : ℚ) ≤ ((truncQ v : ℤ) : ℚ) ∧ ((truncQ v : ℤ) : ℚ) ≤ (b : ℚ) := by
  have hv0 : (0 : ℚ) ≤ v := le_trans (by exact_mod_cast h0) h1
  rw [truncQ_eq_floor hv0]
  constructor
  · exact_mod_cast Int.le_floor.mpr h1
  · exact le_trans (Int.floor_le v) h2

lemma clamp_of_mem {lo hi q : ℚ} (h1 : lo ≤ q) (h2 : q ≤ hi) :
    max lo (min hi q) = q := by
  rw [min_eq_right h2, max_eq_right h1]

lemma validateField_mem (p : ParamMap) (k : String) {lo hi : ℚ} (hlh : lo ≤ hi)
    (hd1 : lo ≤ (defaultsMap.lookup k).getD 0)
    (hd2 : (defaultsMap.lookup k).getD 0 ≤ hi) :
    lo ≤ validateField p k lo hi ∧ validateField p k lo hi ≤ hi := by
  unfold validateField
  cases hpk : p.lookup k with
  | none => exact ⟨hd1, hd2⟩
  | some v =>
    cases v with
    | num q => exact ⟨le_max_left _ _, max_le hlh (min_le_left _ _)⟩
    | str s => exact ⟨le_refl _, hlh⟩

lemma validate_parameters_eq (p : ParamMap) :
    validate_parameters p =
      [("seed", Val.num ((truncQ (validateField p "seed" 0 10000) : ℤ) : ℚ)),
       ("frequency", Val.num (validateField p "frequency" (1/100) 1)),
       ("amplitude", Val.num (validateField p "amplitude" (1/2) 20)),
       ("octaves", Val.num ((truncQ (validateField p "octaves" 1 6) : ℤ) : ℚ)),
       ("lacunarity", Val.num (validateField p "lacunarity" (3/2) 3)),
       ("persistence", Val.num (validateField p "persistence" (1/10) (4/5))),
       ("terrain_type", Val.num ((truncQ (validateField p "terrain_type" 0 5) : ℤ) : ℚ)),
       ("erosion", Val.num (validateField p "erosion" 0 1)),
       ("plateau", Val.num (validateField p "plateau" 0 15))] := by
  simp +decide [validate_parameters, validateLoop, intify, constraints]

lemma getQ_validate_seed (p : ParamMap) :
    getQ (validate_parameters p) "seed" =
      ((truncQ (validateField p "seed" 0 10000) : ℤ) : ℚ) := by
  rw [validate_parameters_eq]
  simp +decide [getQ, List.lookup]

lemma getQ_validate_frequency (p : ParamMap) :
    getQ (validate_parameters p) "frequency" = validateField p "frequency" (1/100) 1 := by
  rw [validate_parameters_eq]
  simp +decide [getQ, List.lookup]

lemma getQ_validate_amplitude (p : ParamMap) :
    getQ (validate_parameters p) "amplitude" = validateField p "amplitude" (1/2) 20 := by
  rw [validate_parameters_eq]
  simp +decide [getQ, List.lookup]

lemma getQ_validate_octaves (p : ParamMap) :
    getQ (validate_parameters p) "octaves" =
      ((truncQ (validateField p "octaves" 1 6) : ℤ) : ℚ) := by
  rw [validate_parameters_eq]
  simp +decide [getQ, List.lookup]

lemma getQ_validate_lacunarity (p : ParamMap) :
    getQ (validate_parameters p) "lacunarity" = validateField p "lacunarity" (3/2) 3 := by
  rw [validate_parameters_eq]
  simp +decide [getQ, List.lookup]

lemma getQ_validate_persistence (p : ParamMap) :
    getQ (validate_parameters p) "persistence" = validateField p "persistence" (1/10) (4/5) := by
  rw [validate_parameters_eq]
  simp +decide [getQ, List.lookup]

lemma getQ_validate_terrain (p : ParamMap) :
    getQ (validate_parameters p) "terrain_type" =
      ((truncQ (validateField p "terrain_type" 0 5) : ℤ) : ℚ) := by
  rw [validate_parameters_eq]
  simp +decide [getQ, List.lookup]

lemma getQ_validate_erosion (p : ParamMap) :
    getQ (validate_parameters p) "erosion" = validateField p "erosion" 0 1 := by
  rw [validate_parameters_eq]
  simp +decide [getQ, List.lookup]

lemma getQ_validate_plateau (p : ParamMap) :
    getQ (validate_parameters p) "plateau" = validateField p "plateau" 0 15 := by
  rw [validate_parameters_eq]
  simp +decide [getQ, List.lookup]


lemma defaultsVal_seed : (defaultsMap.lookup "seed").getD 0 = 42 := by
  simp +decide [defaultsMap, List.lookup]

lemma defaultsVal_frequency : (defaultsMap.lookup "frequency").getD 0 = 1/10 := by
  simp +decide [defaultsMap, List.lookup]

lemma defaultsVal_amplitude : (defaultsMap.lookup "amplitude").getD 0 = 5 := by
  simp +decide [defaultsMap, List.lookup]

lemma defaultsVal_octaves : (defaultsMap.lookup "octaves").getD 0 = 3 := by
  simp +decide [defaultsMap, List.lookup]

lemma defaultsVal_lacunarity : (defaultsMap.lookup "lacunarity").getD 0 = 2 := by
  simp +decide [defaultsMap, List.lookup]

lemma defaultsVal_persistence : (defaultsMap.lookup "persistence").getD 0 = 1/2 := by
  simp +decide [defaultsMap, List.lookup]

lemma defaultsVal_terrain : (defaultsMap.lookup "terrain_type").getD 0 = 1 := by
  simp +decide [defaultsMap, List.lookup]

lemma defaultsVal_erosion : (defaultsMap.lookup "erosion").getD 0 = 0 := by
  simp +decide [defaultsMap, List.lookup]

lemma defaultsVal_plateau : (defaultsMap.lookup "plateau").getD 0 = 0 := by
  simp +decide [defaultsMap, List.lookup]

lemma validateField_trunc_mem (p : ParamMap) (k : String) {lo hi : ℚ} {a b : ℤ}
    (ha : (a : ℚ) = lo) (hb : (b : ℚ) = hi) (h0 : 0 ≤ a) (hlh : lo ≤ hi)
    (hd1 : lo ≤ (defaultsMap.lookup k).getD 0)
    (hd2 : (defaultsMap.lookup k).getD 0 ≤ hi) :
    (a : ℚ) ≤ ((truncQ (validateField p k lo hi) : ℤ) : ℚ) ∧
      ((truncQ (validateField p k lo hi) : ℤ) : ℚ) ≤ (b : ℚ) := by
  obtain ⟨h1, h2⟩ := validateField_mem p k hlh hd1 hd2
  exact truncQ_bounds h0 (by rw [ha]; exact h1) (by rw [hb]; exact h2)

/-- C2: for every input mapping (empty, out-of-range, wrong-typed or with
unknown keys), `validate_parameters` returns a record with exactly the 9
schema fields present, each value inside its documented closed range, and
`seed`, `octaves`, `terrain_type` integral.  (The Lean model is a total
function, mirroring that the source function raises on no input.) -/
theorem validate_total (p : ParamMap) :
    (validate_parameters p).map Prod.fst = constraintKeys ∧
    (∀ k lo hi, (k, lo, hi) ∈ constraints →
      lo ≤ getQ (validate_parameters p) k ∧ getQ (validate_parameters p) k ≤ hi) ∧
    (getQ (validate_parameters p) "seed").den = 1 ∧
    (getQ (validate_parameters p) "octaves").den = 1 ∧
    (getQ (validate_parameters p) "terrain_type").den = 1 := by
  refine ⟨?_, ?_, ?_, ?_, ?_⟩
  · rw [validate_parameters_eq]; rfl
  · intro k lo hi hmem
    simp only [constraints] at hmem
    fin_cases hmem
    · rw [getQ_validate_seed]
      have h := validateField_trunc_mem p "seed" (show ((0 : ℤ) : ℚ) = 0 by norm_num)
        (show ((10000 : ℤ) : ℚ) = 10000 by norm_num) (by norm_num) (by norm_num)
        (by rw [defaultsVal_seed]; norm_num) (by rw [defaultsVal_seed]; norm_num)
      exact ⟨by exact_mod_cast h.1, by exact_mod_cast h.2⟩
    · rw [getQ_validate_frequency]
      exact validateField_mem p "frequency" (by norm_num)
        (by rw [defaultsVal_frequency]; norm_num) (by rw [defaultsVal_frequency]; norm_num)
    · rw [getQ_validate_amplitude]
      exact validateField_mem p "amplitude" (by norm_num)
        (by rw [defaultsVal_amplitude]; norm_num) (by rw [defaultsVal_amplitude]; norm_num)
    · rw [getQ_validate_octaves]
      have h := validateField_trunc_mem p "octaves" (show ((1 : ℤ) : ℚ) = 1 by norm_num)
        (show ((6 : ℤ) : ℚ) = 6 by norm_num) (by norm_num) (by norm_num)
        (by rw [defaultsVal_octaves]; norm_num) (by rw [defaultsVal_octaves]; norm_num)
      exact ⟨by exact_mod_cast h.1, by exact_mod_cast h.2⟩
    · rw [getQ_validate_lacunarity]
      exact validateField_mem p "lacunarity" (by norm_num)
        (by rw [defaultsVal_lacunarity]; norm_num) (by rw [defaultsVal_lacunarity]; norm_num)
    · rw [getQ_validate_persistence]
      exact validateField_mem p "persistence" (by norm_num)
        (by rw [defaultsVal_persistence]; norm_num) (by rw [defaultsVal_persistence]; norm_num)
    · rw [getQ_validate_terrain]
      have h := validateField_trunc_mem p "terrain_type" (show ((0 : ℤ) : ℚ) = 0 by norm_num)
        (show ((5 : ℤ) : ℚ) = 5 by norm_num) (by norm_num) (by norm_num)
        (by rw [defaultsVal_terrain]; norm_num) (by rw [defaultsVal_terrain]; norm_num)
      exact ⟨by exact_mod_cast h.1, by exact_mod_cast h.2⟩
    · rw [getQ_validate_erosion]
      exact validateField_mem p "erosion" (by norm_num)
        (by rw [defaultsVal_erosion]) (by rw [defaultsVal_erosion]; norm_num)
    · rw [getQ_validate_plateau]
      exact validateField_mem p "plateau" (by norm_num)
        (by rw [defaultsVal_plateau]) (by rw [defaultsVal_plateau]; norm_num)
  · rw [getQ_validate_seed]; exact Rat.den_intCast _
  · rw [getQ_validate_octaves]; exact Rat.den_intCast _
  · rw [getQ_validate_terrain]; exact Rat.den_intCast _

/-- Witness for C2 at a concrete mapping and field. -/
theorem validate_total_witness :
    (1/2 : ℚ) ≤ getQ (validate_parameters [("amplitude", Val.num 999)]) "amplitude" ∧
      getQ (validate_parameters [("amplitude", Val.num 999)]) "amplitude" ≤ 20 :=
  (validate_total [("amplitude", Val.num 999)]).2.1 "amplitude" (1/2) 20 (by norm_num [constraints])

lemma lookup_eq_none_of_not_mem_keys (m : List (String × Val)) (k : String)
    (hk : k ∉ m.map Prod.fst) : m.lookup k = none := by
  induction m with
  | nil => rfl
  | cons e t ih =>
    obtain ⟨a, b⟩ := e
    simp only [List.map_cons, List.mem_cons] at hk
    push_neg at hk
    obtain ⟨h1, h2⟩ := hk
    have hb : (k == a) = false := beq_eq_false_iff_ne.mpr h1
    simp [List.lookup, hb, ih h2]

/-- C10: the record returned by `validate_parameters` carries exactly the
9 schema keys (in the constraints order) and no others; in particular a
key of the input outside the schema never appears in the output. -/
theorem validate_keys_exact (p : ParamMap) :
    (validate_parameters p).map Prod.fst = constraintKeys ∧
    (∀ k, k ∉ constraintKeys → (validate_parameters p).lookup k = none) := by
  have hkeys : (validate_parameters p).map Prod.fst = constraintKeys := by
    rw [validate_parameters_eq]; rfl
  refine ⟨hkeys, ?_⟩
  intro k hk
  exact lookup_eq_none_of_not_mem_keys _ k (by rw [hkeys]; exact hk)

/-- Witness for C10: an unknown input key is dropped. -/
theorem validate_keys_exact_witness :
    (validate_parameters [("bogus", Val.num 1)]).lookup "bogus" = none :=
  (validate_keys_exact [("bogus", Val.num 1)]).2 "bogus" (by decide)

/-- C5: validation is idempotent.  The output of `validate_parameters` is
itself a mapping (`to_mapping` is the identity of this embedding), and
re-validating it returns it unchanged: every value is already in range and
the integer coercions are fixed points. -/
theorem validate_idempotent (p : ParamMap) :
    validate_parameters (validate_parameters p) = validate_parameters p := by
  obtain ⟨hs1, hs2⟩ := validateField_trunc_mem p "seed" (show ((0 : ℤ) : ℚ) = 0 by norm_num)
    (show ((10000 : ℤ) : ℚ) = 10000 by norm_num) (by norm_num) (by norm_num)
    (by rw [defaultsVal_seed]; norm_num) (by rw [defaultsVal_seed]; norm_num)
  obtain ⟨ho1, ho2⟩ := validateField_trunc_mem p "octaves" (show ((1 : ℤ) : ℚ) = 1 by norm_num)
    (show ((6 : ℤ) : ℚ) = 6 by norm_num) (by norm_num) (by norm_num)
    (by rw [defaultsVal_octaves]; norm_num) (by rw [defaultsVal_octaves]; norm_num)
  obtain ⟨ht1, ht2⟩ := validateField_trunc_mem p "terrain_type" (show ((0 : ℤ) : ℚ) = 0 by norm_num)
    (show ((5 : ℤ) : ℚ) = 5 by norm_num) (by norm_num) (by norm_num)
    (by rw [defaultsVal_terrain]; norm_num) (by rw [defaultsVal_terrain]; norm_num)
  obtain ⟨hf1, hf2⟩ := validateField_mem p "frequency" (show (1/100 : ℚ) ≤ 1 by norm_num)
    (by rw [defaultsVal_frequency]; norm_num) (by rw [defaultsVal_frequency]; norm_num)
  obtain ⟨ha1, ha2⟩ := validateField_mem p "amplitude" (show (1/2 : ℚ) ≤ 20 by norm_num)
    (by rw [defaultsVal_amplitude]; norm_num) (by rw [defaultsVal_amplitude]; norm_num)
  obtain ⟨hl1, hl2⟩ := validateField_mem p "lacunarity" (show (3/2 : ℚ) ≤ 3 by norm_num)
    (by rw [defaultsVal_lacunarity]; norm_num) (by rw [defaultsVal_lacunarity]; norm_num)
  obtain ⟨hp1, hp2⟩ := validateField_mem p "persistence" (show (1/10 : ℚ) ≤ 4/5 by norm_num)
    (by rw [defaultsVal_persistence]; norm_num) (by rw [defaultsVal_persistence]; norm_num)
  obtain ⟨he1, he2⟩ := validateField_mem p "erosion" (show (0 : ℚ) ≤ 1 by norm_num)
    (by rw [defaultsVal_erosion]) (by rw [defaultsVal_erosion]; norm_num)
  obtain ⟨hq1, hq2⟩ := validateField_mem p "plateau" (show (0 : ℚ) ≤ 15 by norm_num)
    (by rw [defaultsVal_plateau]) (by rw [defaultsVal_plateau]; norm_num)
  rw [validate_parameters_eq p]
  generalize hzs : truncQ (validateField p "seed" 0 10000) = zs
  generalize hzo : truncQ (validateField p "octaves" 1 6) = zo
  generalize hzt : truncQ (validateField p "terrain_type" 0 5) = zt
  generalize hvf : validateField p "frequency" (1/100) 1 = vf
  generalize hva : validateField p "amplitude" (1/2) 20 = va
  generalize hvl : validateField p "lacunarity" (3/2) 3 = vl
  generalize hvp : validateField p "persistence" (1/10) (4/5) = vp
  generalize hve : validateField p "erosion" 0 1 = ve
  generalize hvq : validateField p "plateau" 0 15 = vq
  rw [hzs] at hs1 hs2
  rw [hzo] at ho1 ho2
  rw [hzt] at ht1 ht2
  rw [hvf] at hf1 hf2
  rw [hva] at ha1 ha2
  rw [hvl] at hl1 hl2
  rw [hvp] at hp1 hp2
  rw [hve] at he1 he2
  rw [hvq] at hq1 hq2
  push_cast at hs1 hs2 ho1 ho2 ht1 ht2
  rw [validate_parameters_eq]
  simp only [validateField, List.lookup, String.reduceBEq, validateValue,
    List.cons.injEq, Prod.mk.injEq, Val.num.injEq, Int.cast_inj,
    eq_self_iff_true, true_and, and_true]
  refine ⟨?_, ?_, ?_, ?_, ?_, ?_, ?_, ?_, ?_⟩
  · rw [clamp_of_mem hs1 hs2, truncQ_intCast]
  · exact clamp_of_mem hf1 hf2
  · exact clamp_of_mem ha1 ha2
  · rw [clamp_of_mem ho1 ho2, truncQ_intCast]
  · exact clamp_of_mem hl1 hl2
  · exact clamp_of_mem hp1 hp2
  · rw [clamp_of_mem ht1 ht2, truncQ_intCast]
  · exact clamp_of_mem he1 he2
  · exact clamp_of_mem hq1 hq2

lemma validateField_of_str (p : ParamMap) (k : String) (lo hi : ℚ) (s : String)
    (h : p.lookup k = some (Val.str s)) : validateField p k lo hi = lo := by
  unfold validateField
  rw [h]
  rfl

lemma validateField_of_none (p : ParamMap) (k : String) (lo hi : ℚ)
    (h : p.lookup k = none) : validateField p k lo hi = (defaultsMap.lookup k).getD 0 := by
  unfold validateField
  rw [h]

/-- C4: a present non-numeric value is replaced by the field's minimum
bound, an absent field by its documented default; on the mapping
amplitude=999, octaves="bad", terrain_type=2 the validator yields
amplitude=20, octaves=1, terrain_type=2 and every other field at its
default. -/
theorem validate_min_default_policy :
    (∀ (p : ParamMap) (k : String) (lo hi : ℚ) (s : String),
      (k, lo, hi) ∈ constraints → p.lookup k = some (Val.str s) →
      getQ (validate_parameters p) k = lo) ∧
    (∀ (p : ParamMap) (k : String) (lo hi : ℚ),
      (k, lo, hi) ∈ constraints → p.lookup k = none →
      getQ (validate_parameters p) k = (defaultsMap.lookup k).getD 0) ∧
    validate_parameters
        [("amplitude", Val.num 999), ("octaves", Val.str "bad"), ("terrain_type", Val.num 2)] =
      [("seed", Val.num 42), ("frequency", Val.num (1/10)), ("amplitude", Val.num 20),
       ("octaves", Val.num 1), ("lacunarity", Val.num 2), ("persistence", Val.num (1/2)),
       ("terrain_type", Val.num 2), ("erosion", Val.num 0), ("plateau", Val.num 0)] := by
  refine ⟨?_, ?_, ?_⟩
  · intro p k lo hi s hmem hlk
    simp only [constraints] at hmem
    fin_cases hmem
    · rw [getQ_validate_seed, validateField_of_str p "seed" 0 10000 s hlk]
      norm_num [truncQ]
    · rw [getQ_validate_frequency, validateField_of_str p "frequency" (1/100) 1 s hlk]
    · rw [getQ_validate_amplitude, validateField_of_str p "amplitude" (1/2) 20 s hlk]
    · rw [getQ_validate_octaves, validateField_of_str p "octaves" 1 6 s hlk]
      norm_num [truncQ]
    · rw [getQ_validate_lacunarity, validateField_of_str p "lacunarity" (3/2) 3 s hlk]
    · rw [getQ_validate_persistence, validateField_of_str p "persistence" (1/10) (4/5) s hlk]
    · rw [getQ_validate_terrain, validateField_of_str p "terrain_type" 0 5 s hlk]
      norm_num [truncQ]
    · rw [getQ_validate_erosion, validateField_of_str p "erosion" 0 1 s hlk]
    · rw [getQ_validate_plateau, validateField_of_str p "plateau" 0 15 s hlk]
  · intro p k lo hi hmem hlk
    simp only [constraints] at hmem
    fin_cases hmem
    · rw [getQ_validate_seed, validateField_of_none p "seed" 0 10000 hlk, defaultsVal_seed]
      norm_num [truncQ]
    · rw [getQ_validate_frequency, validateField_of_none p "frequency" (1/100) 1 hlk]
    · rw [getQ_validate_amplitude, validateField_of_none p "amplitude" (1/2) 20 hlk]
    · rw [getQ_validate_octaves, validateField_of_none p "octaves" 1 6 hlk, defaultsVal_octaves]
      norm_num [truncQ]
    · rw [getQ_validate_lacunarity, validateField_of_none p "lacunarity" (3/2) 3 hlk]
    · rw [getQ_validate_persistence, validateField_of_none p "persistence" (1/10) (4/5) hlk]
    · rw [getQ_validate_terrain, validateField_of_none p "terrain_type" 0 5 hlk, defaultsVal_terrain]
      norm_num [truncQ]
    · rw [getQ_validate_erosion, validateField_of_none p "erosion" 0 1 hlk]
    · rw [getQ_validate_plateau, validateField_of_none p "plateau" 0 15 hlk]
  · simp +decide [validate_parameters, validateLoop, intify, constraints,
      validateField, validateValue, defaultsMap, truncQ, List.lookup, max_def, min_def]
    norm_num

/-- Witness for C4 at a concrete mapping and field. -/
theorem validate_min_default_policy_witness :
    getQ (validate_parameters [("octaves", Val.str "bad")]) "octaves" = 1 :=
  validate_min_default_policy.1 [("octaves", Val.str "bad")] "octaves" 1 6 "bad"
    (by simp +decide [constraints]) (by decide)

/-- C6: the heuristic analyzer on "I want rolling hills" yields
terrain_type=1, amplitude=8.0, frequency=0.1 with every other non-seed
field at its default and seed = r mod 10000 inside the seed range; on
"Make some mountains with rivers" it yields terrain_type=2,
amplitude=15.0, frequency=0.05, erosion=0.3 (others at defaults). -/
theorem fallback_scenarios (r : ℕ) :
    fallbackCompute "I want rolling hills" r =
      { defaultParams r with
          terrain_type := 1, amplitude := 8, frequency := 1/10 } ∧
    (fallbackCompute "I want rolling hills" r).seed = ((r % 10000 : ℕ) : ℚ) ∧
    r % 10000 < 10000 ∧
    fallbackCompute "Make some mountains with rivers" r =
      { defaultParams r with
          terrain_type := 2, amplitude := 15, frequency := 1/20, erosion := 3/10 } := by
  refine ⟨rfl, rfl, Nat.mod_lt r (by norm_num), rfl⟩

/-- Agreement on every field except `seed`. -/
def sameModSeed (p q : TParams) : Prop :=
  p.frequency = q.frequency ∧ p.amplitude = q.amplitude ∧ p.octaves = q.octaves ∧
  p.lacunarity = q.lacunarity ∧ p.persistence = q.persistence ∧
  p.terrain_type = q.terrain_type ∧ p.erosion = q.erosion ∧ p.plateau = q.plateau

lemma sameModSeed_terrainLayer (t : String) {p q : TParams} (h : sameModSeed p q) :
    sameModSeed (terrainLayer t p) (terrainLayer t q) := by
  unfold terrainLayer
  split_ifs <;> simp_all [sameModSeed]

lemma sameModSeed_sizeLayer (t : String) {p q : TParams} (h : sameModSeed p q) :
    sameModSeed (sizeLayer t p) (sizeLayer t q) := by
  unfold sizeLayer
  split_ifs <;> simp_all [sameModSeed]

lemma sameModSeed_detailLayer (t : String) {p q : TParams} (h : sameModSeed p q) :
    sameModSeed (detailLayer t p) (detailLayer t q) := by
  unfold detailLayer
  split_ifs <;> simp_all [sameModSeed]

lemma sameModSeed_waterLayer (t : String) {p q : TParams} (h : sameModSeed p q) :
    sameModSeed (waterLayer t p) (waterLayer t q) := by
  unfold waterLayer
  split_ifs <;> simp_all [sameModSeed]

/-- C9: the heuristic analyzer is deterministic modulo the seed: for a
fixed input text, two runs (any two random draws r1, r2) agree on every
field except possibly `seed`; only `seed` depends on the random source. -/
theorem fallback_deterministic_mod_seed (text : String) (r1 r2 : ℕ) :
    (fallbackCompute text r1).frequency = (fallbackCompute text r2).frequency ∧
    (fallbackCompute text r1).amplitude = (fallbackCompute text r2).amplitude ∧
    (fallbackCompute text r1).octaves = (fallbackCompute text r2).octaves ∧
    (fallbackCompute text r1).lacunarity = (fallbackCompute text r2).lacunarity ∧
    (fallbackCompute text r1).persistence = (fallbackCompute text r2).persistence ∧
    (fallbackCompute text r1).terrain_type = (fallbackCompute text r2).terrain_type ∧
    (fallbackCompute text r1).erosion = (fallbackCompute text r2).erosion ∧
    (fallbackCompute text r1).plateau = (fallbackCompute text r2).plateau := by
  have h0 : sameModSeed (defaultParams r1) (defaultParams r2) :=
    ⟨rfl, rfl, rfl, rfl, rfl, rfl, rfl, rfl⟩
  exact sameModSeed_waterLayer _ (sameModSeed_detailLayer _
    (sameModSeed_sizeLayer _ (sameModSeed_terrainLayer _ h0)))

lemma terrainLayer_char (t : String) (p : TParams) :
    (terrainLayer t p).seed = p.seed ∧
    ((terrainLayer t p).frequency = 1/20 ∨ (terrainLayer t p).frequency = 1/10 ∨
      (terrainLayer t p).frequency = p.frequency) ∧
    (((terrainLayer t p).amplitude = 15 ∧ anyWord t mountainWords = true) ∨
      (terrainLayer t p).amplitude = 8 ∨ (terrainLayer t p).amplitude = 6 ∨
      (terrainLayer t p).amplitude = 1 ∨ (terrainLayer t p).amplitude = p.amplitude) ∧
    (terrainLayer t p).octaves = p.octaves ∧
    (terrainLayer t p).lacunarity = p.lacunarity ∧
    (terrainLayer t p).persistence = p.persistence ∧
    ((terrainLayer t p).terrain_type = 2 ∨ (terrainLayer t p).terrain_type = 1 ∨
      (terrainLayer t p).terrain_type = 3 ∨ (terrainLayer t p).terrain_type = 0 ∨
      (terrainLayer t p).terrain_type = 4 ∨ (terrainLayer t p).terrain_type = p.terrain_type) ∧
    (terrainLayer t p).erosion = p.erosion ∧
    ((terrainLayer t p).plateau = 5 ∨ (terrainLayer t p).plateau = p.plateau) := by
  unfold terrainLayer
  split_ifs <;> simp_all

lemma sizeLayer_char (t : String) (p : TParams) :
    (sizeLayer t p).seed = p.seed ∧
    (sizeLayer t p).octaves = p.octaves ∧
    (sizeLayer t p).lacunarity = p.lacunarity ∧
    (sizeLayer t p).persistence = p.persistence ∧
    (sizeLayer t p).terrain_type = p.terrain_type ∧
    (sizeLayer t p).erosion = p.erosion ∧
    (sizeLayer t p).plateau = p.plateau ∧
    ((anyWord t sizeUpWords = true ∧ (sizeLayer t p).frequency = p.frequency * (1/2) ∧
        (sizeLayer t p).amplitude = p.amplitude * (3/2)) ∨
      ((sizeLayer t p).frequency = p.frequency * 2 ∧
        (sizeLayer t p).amplitude = p.amplitude * (7/10)) ∨
      ((sizeLayer t p).frequency = p.frequency ∧
        (sizeLayer t p).amplitude = p.amplitude)) := by
  unfold sizeLayer
  split_ifs <;> simp_all

lemma detailLayer_char (t : String) (p : TParams) :
    (detailLayer t p).seed = p.seed ∧
    (detailLayer t p).frequency = p.frequency ∧
    (detailLayer t p).amplitude = p.amplitude ∧
    ((detailLayer t p).octaves = 5 ∨ (detailLayer t p).octaves = 2 ∨
      (detailLayer t p).octaves = p.octaves) ∧
    ((detailLayer t p).lacunarity = 5/2 ∨ (detailLayer t p).lacunarity = p.lacunarity) ∧
    ((detailLayer t p).persistence = 3/10 ∨ (detailLayer t p).persistence = p.persistence) ∧
    (detailLayer t p).terrain_type = p.terrain_type ∧
    (detailLayer t p).erosion = p.erosion ∧
    (detailLayer t p).plateau = p.plateau := by
  unfold detailLayer
  split_ifs <;> simp_all

lemma waterLayer_char (t : String) (p : TParams) :
    (waterLayer t p).seed = p.seed ∧
    (waterLayer t p).frequency = p.frequency ∧
    (waterLayer t p).amplitude = p.amplitude ∧
    (waterLayer t p).octaves = p.octaves ∧
    (waterLayer t p).lacunarity = p.lacunarity ∧
    (waterLayer t p).persistence = p.persistence ∧
    (waterLayer t p).terrain_type = p.terrain_type ∧
    ((waterLayer t p).erosion = 3/10 ∨ (waterLayer t p).erosion = p.erosion) ∧
    (waterLayer t p).plateau = p.plateau := by
  unfold waterLayer
  split_ifs <;> simp_all

lemma seed_cast_bounds (r : ℕ) :
    (0 : ℚ) ≤ ((r % 10000 : ℕ) : ℚ) ∧ ((r % 10000 : ℕ) : ℚ) ≤ 10000 := by
  constructor
  · exact_mod_cast Nat.zero_le _
  · exact_mod_cast le_of_lt (Nat.mod_lt r (by norm_num))

/-- C1 (amended): the heuristic analyzer's record satisfies every
documented range constraint on every field except amplitude; amplitude
always lies in [0.5, 22.5], and it can only exceed the documented maximum
20.0 when a mountain-family word and a size-up word both occur (where it
equals 15.0 * 1.5 = 22.5).  The source applies no re-validation on this
path. -/
theorem fallback_ranges_amended (text : String) (r : ℕ) :
    ((0 : ℚ) ≤ (fallbackCompute text r).seed ∧ (fallbackCompute text r).seed ≤ 10000) ∧
    (1/100 ≤ (fallbackCompute text r).frequency ∧ (fallbackCompute text r).frequency ≤ 1) ∧
    (1/2 ≤ (fallbackCompute text r).amplitude ∧ (fallbackCompute text r).amplitude ≤ 45/2) ∧
    ((fallbackCompute text r).amplitude ≤ 20 ∨
      (anyWord (pyLower text) mountainWords = true ∧
       anyWord (pyLower text) sizeUpWords = true ∧
       (fallbackCompute text r).amplitude = 45/2)) ∧
    (1 ≤ (fallbackCompute text r).octaves ∧ (fallbackCompute text r).octaves ≤ 6) ∧
    (3/2 ≤ (fallbackCompute text r).lacunarity ∧ (fallbackCompute text r).lacunarity ≤ 3) ∧
    (1/10 ≤ (fallbackCompute text r).persistence ∧ (fallbackCompute text r).persistence ≤ 4/5) ∧
    ((0 : ℚ) ≤ (fallbackCompute text r).terrain_type ∧ (fallbackCompute text r).terrain_type ≤ 5) ∧
    ((0 : ℚ) ≤ (fallbackCompute text r).erosion ∧ (fallbackCompute text r).erosion ≤ 1) ∧
    ((0 : ℚ) ≤ (fallbackCompute text r).plateau ∧ (fallbackCompute text r).plateau ≤ 15) := by
  have hfc : fallbackCompute text r =
      waterLayer (pyLower text) (detailLayer (pyLower text)
        (sizeLayer (pyLower text) (terrainLayer (pyLower text) (defaultParams r)))) := rfl
  obtain ⟨w1, w2, w3, w4, w5, w6, w7, w8, w9⟩ :=
    waterLayer_char (pyLower text) (detailLayer (pyLower text)
      (sizeLayer (pyLower text) (terrainLayer (pyLower text) (defaultParams r))))
  obtain ⟨d1, d2, d3, d4, d5, d6, d7, d8, d9⟩ :=
    detailLayer_char (pyLower text)
      (sizeLayer (pyLower text) (terrainLayer (pyLower text) (defaultParams r)))
  obtain ⟨s1, s2, s3, s4, s5, s6, s7, s8⟩ :=
    sizeLayer_char (pyLower text) (terrainLayer (pyLower text) (defaultParams r))
  obtain ⟨t1, t2, t3, t4, t5, t6, t7, t8, t9⟩ :=
    terrainLayer_char (pyLower text) (defaultParams r)
  refine ⟨?_, ?_, ?_, ?_, ?_, ?_, ?_, ?_, ?_, ?_⟩
  · rw [hfc, w1, d1, s1, t1]
    exact seed_cast_bounds r
  · rw [hfc, w2, d2]
    rcases s8 with ⟨_, hf, _⟩ | ⟨hf, _⟩ | ⟨hf, _⟩ <;> rcases t2 with h | h | h <;>
      rw [hf, h] <;> norm_num [defaultParams]
  · rw [hfc, w3, d3]
    rcases s8 with ⟨_, _, ha⟩ | ⟨_, ha⟩ | ⟨_, ha⟩ <;>
      rcases t3 with ⟨h, _⟩ | h | h | h | h <;>
      rw [ha, h] <;> norm_num [defaultParams]
  · rw [hfc, w3, d3]
    rcases s8 with ⟨hup, _, ha⟩ | ⟨_, ha⟩ | ⟨_, ha⟩
    · rcases t3 with ⟨h, hm⟩ | h | h | h | h
      · exact Or.inr ⟨hm, hup, by rw [ha, h]; norm_num⟩
      · exact Or.inl (by rw [ha, h]; norm_num)
      · exact Or.inl (by rw [ha, h]; norm_num)
      · exact Or.inl (by rw [ha, h]; norm_num)
      · exact Or.inl (by rw [ha, h]; norm_num [defaultParams])
    · rcases t3 with ⟨h, _⟩ | h | h | h | h <;>
        exact Or.inl (by rw [ha, h]; norm_num [defaultParams])
    · rcases t3 with ⟨h, _⟩ | h | h | h | h <;>
        exact Or.inl (by rw [ha, h]; norm_num [defaultParams])
  · rw [hfc, w4]
    rcases d4 with h | h | h <;> rw [h] <;> try norm_num
    rw [s2, t4]
    norm_num [defaultParams]
  · rw [hfc, w5]
    rcases d5 with h | h <;> rw [h] <;> try norm_num
    rw [s3, t5]
    norm_num [defaultParams]
  · rw [hfc, w6]
    rcases d6 with h | h <;> rw [h] <;> try norm_num
    rw [s4, t6]
    norm_num [defaultParams]
  · rw [hfc, w7, d7, s5]
    rcases t7 with h | h | h | h | h | h <;> rw [h] <;> norm_num [defaultParams]
  · rw [hfc]
    rcases w8 with h | h
    · rw [h]; norm_num
    · rw [h, d8, s6, t8]; norm_num [defaultParams]
  · rw [hfc, w9, d9, s7]
    rcases t9 with h | h <;> rw [h] <;> norm_num [defaultParams]

/-- Counterexample to C1 as stated: on "Make huge mountains" the heuristic
analyzer returns amplitude 22.5, outside the documented range [0.5, 20.0],
and this record leaves the pipeline without re-validation. -/
theorem fallback_out_of_range_cex :
    getQ (fallback_analysis "Make huge mountains" 0) "amplitude" = 45/2 ∧
    ¬ (getQ (fallback_analysis "Make huge mountains" 0) "amplitude" ≤ 20) := by
  have h : getQ (fallback_analysis "Make huge mountains" 0) "amplitude" = 45/2 := by
    simp +decide [fallback_analysis, fallbackCompute, terrainLayer, sizeLayer,
      detailLayer, waterLayer, getQ, toMap, defaultParams, List.lookup]
    norm_num
  exact ⟨h, by rw [h]; norm_num⟩

/-- Counterexample to C3 as stated: a response that parses as the JSON
array `[]` is not an object, yet `analyze_terrain_request` does not
delegate to the heuristic: the membership scan never raises, so the
validator runs on an effectively empty mapping and returns the
all-defaults record (amplitude 5), while the heuristic on the same text
returns amplitude 15. -/
theorem analyze_fallback_cex :
    getQ (analyze_terrain_request true (ParsedResponse.parsed (Json.arr []))
      "Make some mountains with rivers" 0) "amplitude" = 5 ∧
    getQ (fallback_analysis "Make some mountains with rivers" 0) "amplitude" = 15 ∧
    analyze_terrain_request true (ParsedResponse.parsed (Json.arr []))
        "Make some mountains with rivers" 0 ≠
      fallback_analysis "Make some mountains with rivers" 0 := by
  have hv : analyze_terrain_request true (ParsedResponse.parsed (Json.arr []))
      "Make some mountains with rivers" 0 = validate_parameters [] := by
    simp [analyze_terrain_request, keyHitsArr]
  have h1 : getQ (analyze_terrain_request true (ParsedResponse.parsed (Json.arr []))
      "Make some mountains with rivers" 0) "amplitude" = 5 := by
    rw [hv, getQ_validate_amplitude, validateField_of_none [] "amplitude" (1/2) 20 rfl,
      defaultsVal_amplitude]
  have h2 : getQ (fallback_analysis "Make some mountains with rivers" 0) "amplitude" = 15 := by
    simp +decide [fallback_analysis, fallbackCompute, terrainLayer, sizeLayer,
      detailLayer, waterLayer, getQ, toMap, defaultParams, List.lookup]
  refine ⟨h1, h2, fun hEq => ?_⟩
  rw [hEq, h2] at h1
  norm_num at h1

/-- C3 (amended): when the remote call raises or the response is not
JSON, the semantic analyzer returns exactly the heuristic output; when it
parses to non-object JSON it returns the heuristic output only when the
validator's membership scan raises `TypeError` (numbers, booleans, null,
or arrays/strings mentioning a schema key); arrays and strings that
mention no schema key instead yield the all-defaults validated record.
Parsed objects go to the validator. -/
theorem analyze_fallback_amended (text : String) (r : ℕ) :
    analyze_terrain_request false ParsedResponse.callFailed text r = fallback_analysis text r ∧
    analyze_terrain_request true ParsedResponse.callFailed text r = fallback_analysis text r ∧
    analyze_terrain_request true ParsedResponse.parseFailed text r = fallback_analysis text r ∧
    (∀ q : ℚ, analyze_terrain_request true (ParsedResponse.parsed (Json.jnum q)) text r =
      fallback_analysis text r) ∧
    (∀ b : Bool, analyze_terrain_request true (ParsedResponse.parsed (Json.jbool b)) text r =
      fallback_analysis text r) ∧
    analyze_terrain_request true (ParsedResponse.parsed Json.jnull) text r =
      fallback_analysis text r ∧
    (∀ elems, keyHitsArr elems = true →
      analyze_terrain_request true (ParsedResponse.parsed (Json.arr elems)) text r =
        fallback_analysis text r) ∧
    (∀ elems, keyHitsArr elems = false →
      analyze_terrain_request true (ParsedResponse.parsed (Json.arr elems)) text r =
        validate_parameters []) ∧
    (∀ s, keyHitsStr s = true →
      analyze_terrain_request true (ParsedResponse.parsed (Json.jstr s)) text r =
        fallback_analysis text r) ∧
    (∀ s, keyHitsStr s = false →
      analyze_terrain_request true (ParsedResponse.parsed (Json.jstr s)) text r =
        validate_parameters []) ∧
    (∀ m, analyze_terrain_request true (ParsedResponse.parsed (Json.obj m)) text r =
      validate_parameters m) := by
  refine ⟨rfl, rfl, rfl, fun q => rfl, fun b => rfl, rfl, ?_, ?_, ?_, ?_, fun m => rfl⟩
  · intro elems h
    simp [analyze_terrain_request, h]
  · intro elems h
    simp [analyze_terrain_request, h]
  · intro s h
    simp [analyze_terrain_request, h]
  · intro s h
    simp [analyze_terrain_request, h]

/-- Witness for C3's amended theorem at a concrete raising response. -/
theorem analyze_fallback_amended_witness :
    analyze_terrain_request true (ParsedResponse.parsed (Json.arr [Val.str "seed"])) "x" 0 =
      fallback_analysis "x" 0 :=
  (analyze_fallback_amended "x" 0).2.2.2.2.2.2.1 [Val.str "seed"] (by decide)

/-- C7: for every path the filesystem reports as missing,
`process_voice_command` returns exactly the single-key error record
"Audio file not found: <path>" with the path interpolated, regardless of
the speech engine, remote client, remote response and random draw — i.e.
no later pipeline stage influences the result. -/
theorem process_missing_file (fs : String → Bool)
    (whisper : Option (String → Option String)) (client : Bool)
    (remote : ParsedResponse) (r : ℕ) (path : String) (h : fs path = false) :
    process_voice_command fs whisper client remote r path =
      PResult.err ("Audio file not found: " ++ path) := by
  unfold process_voice_command
  simp [h]

/-- Witness for C7 at a concrete missing path. -/
theorem process_missing_file_witness :
    process_voice_command (fun _ => false) none false ParsedResponse.callFailed 0
        "/nonexistent/path.wav" =
      PResult.err ("Audio file not found: " ++ "/nonexistent/path.wav") :=
  process_missing_file (fun _ => false) none false ParsedResponse.callFailed 0
    "/nonexistent/path.wav" rfl

/-- C8: with the speech engine unavailable, the transcription adapter
returns one of the six canned phrases (first matching filename keyword) or
the fixed default phrase, always non-empty; consequently the
orchestrator's "Failed to transcribe audio" branch is unreachable: the
result is either the missing-file error or a success record built from
the fallback transcript. -/
theorem transcription_fallback_total (path : String) (fs : String → Bool)
    (client : Bool) (remote : ParsedResponse) (r : ℕ) :
    fallback_transcription path ∈
      ["I want some mountains", "Make rolling hills", "Create valleys with a river",
       "I want a flat plain", "Make rough rocky terrain", "Create smooth gentle hills",
       "Create hilly terrain"] ∧
    0 < (fallback_transcription path).length ∧
    (process_voice_command fs none client remote r path =
        PResult.err ("Audio file not found: " ++ path) ∨
      process_voice_command fs none client remote r path =
        PResult.ok (fallback_transcription path)
          (analyze_terrain_request client remote (fallback_transcription path) r)
          (extract_keywords (fallback_transcription path))) := by
  have hmem : fallback_transcription path ∈
      ["I want some mountains", "Make rolling hills", "Create valleys with a river",
       "I want a flat plain", "Make rough rocky terrain", "Create smooth gentle hills",
       "Create hilly terrain"] := by
    unfold fallback_transcription
    cases hf : fallback_phrases.find? (fun kp => containsWord (pyLower (pyStem path)) kp.1) with
    | none => simp [default_phrase]
    | some kp =>
      have hkp := List.mem_of_find?_eq_some hf
      fin_cases hkp <;> simp
  have hlen : 0 < (fallback_transcription path).length := by
    simp only [List.mem_cons, List.not_mem_nil, or_false] at hmem
    rcases hmem with h | h | h | h | h | h | h <;> rw [h] <;> decide
  refine ⟨hmem, hlen, ?_⟩
  cases hfs : fs path with
  | false =>
    left
    unfold process_voice_command
    simp [hfs]
  | true =>
    right
    have hne : ¬ (transcribe_audio none path = "") := by
      intro h0
      have : (0 : ℕ) < ("" : String).length := by
        have heq : transcribe_audio none path = fallback_transcription path := rfl
        rw [← h0, heq]
        exact hlen
      simp at this
    unfold process_voice_command
    simp [hfs, hne]
    exact ⟨rfl, rfl, rfl⟩
